import Mathlib

/-!
Verification development for the claude-vps-agent repository.

The Python sources are shallowly embedded as pure Lean functions:

* JSON-dict state files become association lists `List (String × α)`;
  a Python dict update `d[k] = v` is modelled as erase-then-append,
  which has the same lookup semantics as a dict (and the same
  iteration content up to the position of the updated key, which no
  claim depends on).
* Timestamps (`time.time()`, `datetime`) become `Nat` or `Int`
  seconds.  Truncated `Nat` subtraction agrees with the Python
  comparisons used in the source because the TTL is positive.
* Python string slicing `s[:n]` is by characters, embedded as
  `String.mk (s.data.take n)`.
* The external libraries `croniter` and `json.loads` are abstracted
  as function parameters (`nextFire`, `pj`), exactly as the source
  treats them as black boxes.
* Exceptions are modelled with `Except String`; an `Except.error`
  value is an exception propagating to the caller.
-/

/-- Association-list lookup with the semantics of a Python dict read. -/
def dictGet {α : Type} : List (String × α) → String → Option α
  | [], _ => none
  | q :: rest, k => if q.1 = k then some q.2 else dictGet rest k

/-- Association-list removal of every pair with the given key, the
semantics of `del d[k]` on a dict (which holds each key once). -/
def dictErase {α : Type} : List (String × α) → String → List (String × α)
  | [], _ => []
  | q :: rest, k => if q.1 = k then dictErase rest k else q :: dictErase rest k

/-- Association-list upsert, the semantics of `d[k] = v` on a dict. -/
def dictInsert {α : Type} (d : List (String × α)) (k : String) (v : α) :
    List (String × α) :=
  dictErase d k ++ [(k, v)]

theorem dictGet_erase {α : Type} (d : List (String × α)) (k : String) :
    dictGet (dictErase d k) k = none := by
  induction d with
  | nil => rfl
  | cons q rest ih =>
      by_cases h : q.1 = k
      · simp [dictErase, h, ih]
      · simp [dictErase, dictGet, h, ih]

theorem dictGet_append_right {α : Type} (d e : List (String × α)) (k : String)
    (h : dictGet d k = none) : dictGet (d ++ e) k = dictGet e k := by
  induction d with
  | nil => rfl
  | cons q rest ih =>
      by_cases hq : q.1 = k
      · simp [dictGet, hq] at h
      · simp [dictGet, hq] at h ⊢
        exact ih h

theorem dictGet_insert {α : Type} (d : List (String × α)) (k : String) (v : α) :
    dictGet (dictInsert d k v) k = some v := by
  unfold dictInsert
  rw [dictGet_append_right _ _ _ (dictGet_erase d k)]
  simp [dictGet]

theorem dictGet_mem {α : Type} {d : List (String × α)} {k : String} {v : α}
    (h : dictGet d k = some v) : (k, v) ∈ d := by
  induction d with
  | nil => simp [dictGet] at h
  | cons q rest ih =>
      by_cases hq : q.1 = k
      · simp [dictGet, hq] at h
        cases q
        simp_all
      · simp [dictGet, hq] at h
        right
        exact ih h

/-! ## Session store (src/lib/session_store.py) -/

/-- Seconds in the 7 day session TTL (`SESSION_TTL_SECONDS`). -/
def SESSION_TTL_SECONDS : Nat := 7 * 24 * 60 * 60

/-- One value of the sessions dict: the record written by
`SessionStore.set`.  `updated_at` is optional because `get` and
`cleanup_expired` read it with `entry.get("updated_at", 0)`, so the
code tolerates entries missing the field; likewise `session_id` is
read with `entry.get("session_id")`. -/
structure Entry where
  session_id : Option String
  platform : String
  user_id : String
  updated_at : Option Nat
deriving DecidableEq, Repr

/-- The on-disk sessions table, a JSON object keyed by
`platform:user_id`. -/
abbrev SessionData : Type := List (String × Entry)

/-- Key construction of `SessionStore._key`. -/
def SessionStore.key (platform user_id : String) : String :=
  platform ++ (":") ++ user_id

/-- Embedding of `SessionStore.get`: looks the key up, deletes the
entry and answers `none` when it is expired, otherwise returns the
stored session id.  The whole body runs under the file lock, so the
state transition is atomic; the function returns the answer together
with the state left on disk. -/
def SessionStore.get (d : SessionData) (platform user_id : String) (now : Nat) :
    Option String × SessionData :=
  let k := SessionStore.key platform user_id
  match dictGet d k with
  | none => (none, d)
  | some e =>
      if SESSION_TTL_SECONDS < now - e.updated_at.getD 0 then
        (none, dictErase d k)
      else
        (e.session_id, d)

/-- Embedding of `SessionStore.set`: upsert stamping
`updated_at = now`. -/
def SessionStore.set (d : SessionData) (platform user_id session_id : String)
    (now : Nat) : SessionData :=
  dictInsert d (SessionStore.key platform user_id)
    { session_id := some session_id
      platform := platform
      user_id := user_id
      updated_at := some now }

/-- Embedding of `SessionStore.cleanup_expired`: removes every expired
entry and returns the remaining table together with the count
removed. -/
def SessionStore.cleanup_expired (d : SessionData) (now : Nat) :
    SessionData × Nat :=
  (List.filter
      (fun q => decide (now - (Prod.snd q).updated_at.getD 0 ≤ SESSION_TTL_SECONDS)) d,
    (List.filter
      (fun q => decide (SESSION_TTL_SECONDS < now - (Prod.snd q).updated_at.getD 0)) d).length)

/-! ## Serialized operation traces on the session store (claim C1)

Concurrent callers all target the same `(platform, user_id)` key; the
per-file exclusive `flock` serializes their critical sections, so an
execution is a list of operations in lock-acquisition order.  The
callers are concurrent, hence the calls carry one common wall-clock
instant `now`. -/

/-- One serialized session-store call on the shared key. -/
inductive SOp where
  | set (session_id : String)
  | get
deriving DecidableEq, Repr

/-- State transition of one serialized call. -/
def SessionStore.step (platform user_id : String) (now : Nat)
    (d : SessionData) : SOp → SessionData
  | .set sid => SessionStore.set d platform user_id sid now
  | .get => (SessionStore.get d platform user_id now).2

/-- Runs a lock-ordered trace of calls against the store. -/
def SessionStore.runOps (platform user_id : String) (now : Nat)
    (d : SessionData) : List SOp → SessionData
  | [] => d
  | op :: rest =>
      SessionStore.runOps platform user_id now
        (SessionStore.step platform user_id now d op) rest

/-- The session id of the last `set` in a trace, if any. -/
def lastSetVal : List SOp → Option String
  | [] => none
  | op :: rest =>
      match lastSetVal rest with
      | some v => some v
      | none =>
          match op with
          | .set v => some v
          | .get => none

/-! ## Notification queue (src/lib/notifier.py) -/

/-- Embedding of the `Notification` dataclass.  `user_id = none` is a
broadcast to every opted-in user of the platform. -/
structure Notification where
  platform : String
  user_id : Option String
  message : String
  timestamp : String
  source : String
deriving DecidableEq, Repr

/-- Embedding of `NotificationQueue.push_broadcast`: appends one
broadcast entry under the file lock.  The dataclass stamps
`timestamp = datetime.now().isoformat()`, passed here as `ts`. -/
def NotificationQueue.push_broadcast (entries : List Notification)
    (platform message source ts : String) : List Notification :=
  entries ++ [{ platform := platform
                user_id := none
                message := message
                timestamp := ts
                source := source }]

/-- Embedding of `NotificationQueue.pop_all`: under the file lock,
returns every entry of the platform and persists the rest; result is
`(matched, remaining-on-disk)`. -/
def NotificationQueue.pop_all (entries : List Notification)
    (platform : String) : List Notification × List Notification :=
  (entries.filter (fun e => decide (e.platform = platform)),
   entries.filter (fun e => decide (¬ e.platform = platform)))

/-! ## File-access model (claim C2)

Each public operation of the three state-file owners performs a fixed
set of reads and writes of its backing file.  An `Access` records, for
one such read or write as written in the source, whether it happens
inside the `FileLock` critical section and, for a write, whether it
goes through `atomic_write` (temp file plus `os.replace`).  Traces
list every access the operation can perform; conditional accesses
(such as the expiry delete inside `SessionStore.get`) are listed
unconditionally, which is conservative for the universally quantified
locking claim. -/

/-- The three on-disk state files of the spec. -/
inductive Resource where
  | sessions
  | notifications
  | lastRun
deriving DecidableEq, Repr

/-- One file access as written in the source. -/
structure Access where
  resource : Resource
  isWrite : Bool
  underLock : Bool
  atomicReplace : Bool
deriving DecidableEq, Repr

/-- Accesses of `SessionStore.get`: locked read, conditional locked
atomic write on expiry. -/
def sessionGetAccesses : List Access :=
  [{ resource := .sessions, isWrite := false, underLock := true, atomicReplace := false },
   { resource := .sessions, isWrite := true, underLock := true, atomicReplace := true }]

/-- Accesses of `SessionStore.set`: locked read, locked atomic write. -/
def sessionSetAccesses : List Access :=
  [{ resource := .sessions, isWrite := false, underLock := true, atomicReplace := false },
   { resource := .sessions, isWrite := true, underLock := true, atomicReplace := true }]

/-- Accesses of `SessionStore.clear`: locked read, locked atomic write. -/
def sessionClearAccesses : List Access :=
  [{ resource := .sessions, isWrite := false, underLock := true, atomicReplace := false },
   { resource := .sessions, isWrite := true, underLock := true, atomicReplace := true }]

/-- Accesses of `SessionStore.clear_all`: one locked atomic write. -/
def sessionClearAllAccesses : List Access :=
  [{ resource := .sessions, isWrite := true, underLock := true, atomicReplace := true }]

/-- Accesses of `SessionStore.cleanup_expired`: locked read,
conditional locked atomic write. -/
def sessionCleanupAccesses : List Access :=
  [{ resource := .sessions, isWrite := false, underLock := true, atomicReplace := false },
   { resource := .sessions, isWrite := true, underLock := true, atomicReplace := true }]

/-- Accesses of `NotificationQueue.push`: locked read, locked atomic
write. -/
def notifierPushAccesses : List Access :=
  [{ resource := .notifications, isWrite := false, underLock := true, atomicReplace := false },
   { resource := .notifications, isWrite := true, underLock := true, atomicReplace := true }]

/-- Accesses of `NotificationQueue.push_broadcast`: locked read,
locked atomic write. -/
def notifierPushBroadcastAccesses : List Access :=
  [{ resource := .notifications, isWrite := false, underLock := true, atomicReplace := false },
   { resource := .notifications, isWrite := true, underLock := true, atomicReplace := true }]

/-- Accesses of `NotificationQueue.pop_all`: locked read, locked
atomic write. -/
def notifierPopAllAccesses : List Access :=
  [{ resource := .notifications, isWrite := false, underLock := true, atomicReplace := false },
   { resource := .notifications, isWrite := true, underLock := true, atomicReplace := true }]

/-- Accesses of `scheduler.load_state`: a bare `STATE_FILE.read_text()`
with no `FileLock` in scope. -/
def loadStateAccesses : List Access :=
  [{ resource := .lastRun, isWrite := false, underLock := false, atomicReplace := false }]

/-- Accesses of `scheduler.save_state`: a bare `STATE_FILE.write_text(...)`
with no `FileLock` in scope and no temp-file-plus-rename. -/
def saveStateAccesses : List Access :=
  [{ resource := .lastRun, isWrite := true, underLock := false, atomicReplace := false }]

/-- Every state-file access the repository performs, one trace per
public operation. -/
def programAccesses : List Access :=
  sessionGetAccesses ++ sessionSetAccesses ++ sessionClearAccesses ++
  sessionClearAllAccesses ++ sessionCleanupAccesses ++
  notifierPushAccesses ++ notifierPushBroadcastAccesses ++
  notifierPopAllAccesses ++ loadStateAccesses ++ saveStateAccesses

/-! ## Python-style string helpers -/

/-- Python slicing `s[:n]` counts characters. -/
def pyTake (s : String) (n : Nat) : String :=
  String.mk (s.data.take n)

/-- Python `len(s)` counts characters. -/
def pyLen (s : String) : Nat :=
  s.data.length

/-- Proposition that `pat` occurs contiguously inside `s`. -/
def strContains (s pat : String) : Prop :=
  ∃ pre post : String, s = pre ++ pat ++ post

theorem string_data_append (a b : String) :
    (a ++ b).data = a.data ++ b.data := by
  cases a
  cases b
  rfl

/-- Characters of a substring occur in the enclosing string. -/
theorem strContains_char_mem {s pat : String} (h : strContains s pat)
    {c : Char} (hc : c ∈ pat.data) : c ∈ s.data := by
  obtain ⟨pre, post, hs⟩ := h
  subst hs
  rw [string_data_append, string_data_append]
  simp only [List.mem_append]
  exact Or.inl (Or.inr hc)

/-! ## Task registry (scheduler.load_tasks) -/

/-- A raw YAML task record before validation: every field optional,
matching `task.get(...)` reads in `load_tasks`. -/
structure RawTask where
  name : Option String
  prompt : Option String
  schedule : Option String
  project_dir : Option String
  allowed_tools : Option (List String)
  model : Option String
  max_budget_usd : Option Rat
  timeout_seconds : Option Nat
  enabled : Option Bool
  notify : Option Bool
  notify_platforms : Option (List String)
deriving DecidableEq, Repr

/-- A validated task as materialized by `load_tasks`. -/
structure SchedTask where
  name : String
  schedule : String
  prompt : String
  project_dir : String
  allowed_tools : Option (List String)
  model : Option String
  max_budget_usd : Option Rat
  timeout_seconds : Nat
  enabled : Bool
  notify : Bool
  notify_platforms : List String
deriving DecidableEq, Repr

/-- Materialization of one valid raw record, with the defaults of
`load_tasks` applied: `project_dir` falls back to the environment
default, `timeout_seconds = 300`, `enabled = true`, `notify = true`,
`notify_platforms = ["telegram", "discord"]`, and a missing name gets
the positional placeholder `task_i`. -/
def materializeTask (defaultProjectDir : String) (i : Nat) (t : RawTask) :
    SchedTask :=
  { name := t.name.getD ((("task_")) ++ toString i)
    schedule := t.schedule.getD ((""))
    prompt := t.prompt.getD ((""))
    project_dir := t.project_dir.getD defaultProjectDir
    allowed_tools := t.allowed_tools
    model := t.model
    max_budget_usd := t.max_budget_usd
    timeout_seconds := t.timeout_seconds.getD 300
    enabled := t.enabled.getD true
    notify := t.notify.getD true
    notify_platforms := t.notify_platforms.getD [(("telegram")), (("discord"))] }

/-- Embedding of the validation loop of `load_tasks`, carrying the
`enumerate` index.  `validCron` abstracts the `croniter(expr)`
syntax check (true when the constructor does not raise).  Returns the
accepted tasks in order together with one warning per skipped
entry. -/
def load_tasks_go (validCron : String → Bool) (defaultProjectDir : String) :
    Nat → List RawTask → List SchedTask × List String
  | _, [] => ([], [])
  | i, t :: rest =>
      let name := t.name.getD ((("task_")) ++ toString i)
      match t.prompt with
      | none =>
          let r := load_tasks_go validCron defaultProjectDir (i + 1) rest
          (r.1, ((("Task ")) ++ name ++ ((" has no prompt - skipping"))) :: r.2)
      | some _ =>
          match t.schedule with
          | none =>
              let r := load_tasks_go validCron defaultProjectDir (i + 1) rest
              (r.1, ((("Task ")) ++ name ++ ((" has no schedule - skipping"))) :: r.2)
          | some sched =>
              if validCron sched then
                let r := load_tasks_go validCron defaultProjectDir (i + 1) rest
                (materializeTask defaultProjectDir i t :: r.1, r.2)
              else
                let r := load_tasks_go validCron defaultProjectDir (i + 1) rest
                (r.1, ((("Task ")) ++ name ++ ((" has invalid cron - skipping"))) :: r.2)

/-- Embedding of `load_tasks` (the per-entry validation part; the
fatal missing-file and missing-tasks-key checks happen before this
loop and abort the process). -/
def load_tasks (validCron : String → Bool) (defaultProjectDir : String)
    (raw : List RawTask) : List SchedTask × List String :=
  load_tasks_go validCron defaultProjectDir 0 raw

/-! ## Due check (scheduler.is_due) -/

/-- Embedding of `is_due`.  `nextFire sched base` abstracts
`croniter(sched, base).get_next(datetime)`; timestamps are `Int`
seconds, and one minute is 60 seconds. -/
def is_due (nextFire : String → Int → Int) (task : SchedTask)
    (state : List (String × Int)) (now : Int) : Bool :=
  if !task.enabled then
    false
  else
    match dictGet state task.name with
    | none => decide (nextFire task.schedule (now - 60) ≤ now)
    | some last_run => decide (nextFire task.schedule last_run ≤ now)

/-! ## Agent bridge (src/lib/claude_bridge.py) -/

/-- Embedding of the `ClaudeResponse` dataclass (the `raw` dict is
dropped: no claim reads it). -/
structure ClaudeResponse where
  text : String
  exit_code : Int
  cost_usd : Rat
  duration_ms : Nat
  duration_api_ms : Nat
  num_turns : Nat
  session_id : String
  is_error : Bool
deriving DecidableEq, Repr

/-- Fields `json.loads` can deliver from the agent output; each is
read with `data.get(...)` and a default. -/
structure JsonData where
  result : Option String
  cost_usd : Option Rat
  duration_ms : Option Nat
  duration_api_ms : Option Nat
  num_turns : Option Nat
  session_id : Option String
  is_error : Option Bool
deriving DecidableEq, Repr

/-- Embedding of `ClaudeBridge._parse_response`; `pj` abstracts
`json.loads` (`none` models a `JSONDecodeError`). -/
def parse_response (pj : String → Option JsonData) (stdout : String)
    (exit_code : Int) : ClaudeResponse :=
  match pj stdout with
  | some d =>
      { text := d.result.getD stdout
        exit_code := exit_code
        cost_usd := d.cost_usd.getD 0
        duration_ms := d.duration_ms.getD 0
        duration_api_ms := d.duration_api_ms.getD 0
        num_turns := d.num_turns.getD 0
        session_id := d.session_id.getD ((""))
        is_error := d.is_error.getD (decide (exit_code ≠ 0)) }
  | none =>
      { text := stdout.trim
        exit_code := exit_code
        cost_usd := 0
        duration_ms := 0
        duration_api_ms := 0
        num_turns := 0
        session_id := ""
        is_error := decide (exit_code ≠ 0) }

/-- The bridge configuration relevant to dispatch (subset of the
`ClaudeBridge` constructor arguments). -/
structure Bridge where
  project_dir : String
  model : Option String
  allowed_tools : Option (List String)
  max_budget_usd : Option Rat
  timeout_seconds : Nat
deriving DecidableEq, Repr

/-- Embedding of `_make_bridge`: the bridge for a task carries the
task fields, with `timeout_seconds` defaulting to 300 in the task
already. -/
def make_bridge (task : SchedTask) : Bridge :=
  { project_dir := task.project_dir
    model := task.model
    allowed_tools := task.allowed_tools
    max_budget_usd := task.max_budget_usd
    timeout_seconds := task.timeout_seconds }

/-- Outcome of the `subprocess.run` call inside `ClaudeBridge.ask`:
normal completion, the two anticipated exceptions, or any other
exception type (carried as its description). -/
inductive AgentOutcome where
  | completed (stdout stderr : String) (returncode : Int)
  | timedOut
  | cliNotFound
  | raised (exn : String)
deriving DecidableEq, Repr

/-- Embedding of `ClaudeBridge.ask`.  `subprocess.TimeoutExpired` and
`FileNotFoundError` are caught and turned into failure-shaped
responses; any other exception escapes the `try` and propagates
(`Except.error`). -/
def ClaudeBridge.ask (pj : String → Option JsonData) (b : Bridge)
    (o : AgentOutcome) : Except String ClaudeResponse :=
  match o with
  | .completed stdout stderr rc =>
      let r := parse_response pj stdout rc
      let r :=
        if rc ≠ 0 ∧ r.text = "" then
          { r with
            text := if stderr.trim = "" then (("Unknown error")) else stderr.trim
            is_error := true }
        else r
      .ok r
  | .timedOut =>
      .ok { text := (("Timeout after ")) ++ toString b.timeout_seconds ++ (("s"))
            exit_code := -1
            cost_usd := 0
            duration_ms := 0
            duration_api_ms := 0
            num_turns := 0
            session_id := ""
            is_error := true }
  | .cliNotFound =>
      .ok { text := (("claude CLI not found. Install: npm install -g @anthropic-ai/claude-code"))
            exit_code := -1
            cost_usd := 0
            duration_ms := 0
            duration_api_ms := 0
            num_turns := 0
            session_id := ""
            is_error := true }
  | .raised exn =>
      .error exn

/-! ## Task dispatch (scheduler.run_task and the check loop) -/

/-- The per-task run-log file written by `run_task` (one file per
dispatch, named by task and timestamp; the formatted body is
abstracted to its fields). -/
structure LogEntry where
  task_name : String
  timestamp : String
  schedule : String
  project_dir : String
  exit_code : Int
  is_error : Bool
  text : String
deriving DecidableEq, Repr

/-- One `brain.add_event` call of `run_task` (the Python formats a
single line from these fields). -/
structure BrainEvent where
  is_error : Bool
  task_name : String
deriving DecidableEq, Repr

/-- The notification message built by `run_task`: failure messages
carry a 300-character slice with no marker, success messages carry the
full text up to 500 characters and otherwise a 500-character slice
plus the truncation marker. -/
def notifMsg (task : SchedTask) (r : ClaudeResponse) : String :=
  if r.is_error then
    (("[Scheduled Task Failed] ")) ++ task.name ++ (("\n\n")) ++ pyTake r.text 300
  else
    let summary := pyTake r.text 500
    let summary :=
      if 500 < pyLen r.text then
        summary ++ (("\n\n(truncated — full output in scheduler logs)"))
      else summary
    (("[Scheduled Task] ")) ++ task.name ++ (("\n\n")) ++ summary

/-- The broadcast entries `run_task` enqueues: one per configured
platform when `notify` is set, none otherwise. -/
def notificationsFor (task : SchedTask) (ts : String) (r : ClaudeResponse) :
    List Notification :=
  if task.notify then
    task.notify_platforms.map
      (fun p =>
        { platform := p
          user_id := none
          message := notifMsg task r
          timestamp := ts
          source := (("scheduler:")) ++ task.name })
  else []

/-- Everything one `run_task` call produces. -/
structure RunResult where
  response : ClaudeResponse
  logs : List LogEntry
  brain_events : List BrainEvent
  notifications : List Notification
deriving DecidableEq, Repr

/-- Embedding of `run_task`: dispatches via the bridge and, when the
invocation returns a response, writes exactly one run-log file, one
brain event, and the broadcast notifications.  An exception escaping
the bridge propagates out of `run_task` unhandled
(`check_and_run` has no try block around it). -/
def run_task (pj : String → Option JsonData) (task : SchedTask) (ts : String)
    (o : AgentOutcome) : Except String RunResult :=
  match ClaudeBridge.ask pj (make_bridge task) o with
  | .error e => .error e
  | .ok r =>
      .ok { response := r
            logs := [{ task_name := task.name
                       timestamp := ts
                       schedule := task.schedule
                       project_dir := task.project_dir
                       exit_code := r.exit_code
                       is_error := r.is_error
                       text := r.text }]
            brain_events := [{ is_error := r.is_error, task_name := task.name }]
            notifications := notificationsFor task ts r }

/-- Embedding of the loop body of `check_and_run`: walks the task list
in registry order, dispatching every due task and persisting `now`
as its last-run instant immediately after the dispatch.  An exception
from a dispatch stops the loop and is returned in the third component
(the partially updated state survives, matching the in-place dict
mutation of the Python). -/
def check_and_run_aux (pj : String → Option JsonData)
    (nextFire : String → Int → Int) (outcomes : String → AgentOutcome)
    (ts : String) (now : Int) :
    List SchedTask → List (String × Int) →
      List (String × Int) × List RunResult × Option String
  | [], st => (st, [], none)
  | task :: rest, st =>
      if is_due nextFire task st now then
        match run_task pj task ts (outcomes task.name) with
        | .error e => (st, [], some e)
        | .ok r =>
            let st2 := dictInsert st task.name now
            let rec2 := check_and_run_aux pj nextFire outcomes ts now rest st2
            (rec2.1, r :: rec2.2.1, rec2.2.2)
      else
        check_and_run_aux pj nextFire outcomes ts now rest st

/-- One daemon-mode cycle: `check_and_run` runs inside a
`try/except` that logs and swallows every exception, so the loop
always continues with the (possibly partially updated) state. -/
def daemon_cycle (pj : String → Option JsonData)
    (nextFire : String → Int → Int) (outcomes : String → AgentOutcome)
    (ts : String) (now : Int) (tasks : List SchedTask)
    (st : List (String × Int)) : List (String × Int) :=
  (check_and_run_aux pj nextFire outcomes ts now tasks st).1

/-! ## Spec-side description of the task registry (claim C9) -/

/-- Index-decorated list, the `enumerate` of the validation loop. -/
def withIdx {α : Type} : Nat → List α → List (Nat × α)
  | _, [] => []
  | i, a :: rest => (i, a) :: withIdx (i + 1) rest

/-- Spec wording of validity: the entry has a prompt and a
syntactically valid cron schedule. -/
def isValidRaw (validCron : String → Bool) (t : RawTask) : Bool :=
  match t.prompt, t.schedule with
  | some _, some sched => validCron sched
  | _, _ => false

/-- Spec wording of the registry result: in input order, exactly the
valid entries, each materialized with the defaults. -/
def load_tasks_spec (validCron : String → Bool) (defaultProjectDir : String)
    (raw : List RawTask) : List SchedTask :=
  ((withIdx 0 raw).filter (fun p => isValidRaw validCron p.2)).map
    (fun p => materializeTask defaultProjectDir p.1 p.2)

/-! ## Helper lemmas -/

theorem string_append_assoc (a b c : String) : a ++ b ++ c = a ++ (b ++ c) := by
  cases a
  cases b
  cases c
  exact congrArg String.mk (List.append_assoc _ _ _)

theorem string_append_empty (a : String) : a ++ ("") = a := by
  cases a
  exact congrArg String.mk (List.append_nil _)

/-- A Python slice `s[:n]` with `n` at least the length is the whole
string. -/
theorem pyTake_all {s : String} {n : Nat} (h : pyLen s ≤ n) : pyTake s n = s := by
  cases s with
  | mk l => exact congrArg String.mk (List.take_of_length_le h)

/-- A pattern occurring in `s` also occurs in `a ++ s`. -/
theorem strContains_appL (a : String) {s pat : String} (h : strContains s pat) :
    strContains (a ++ s) pat := by
  obtain ⟨pre, post, hs⟩ := h
  exact ⟨a ++ pre, post, by subst hs; simp only [string_append_assoc]⟩

/-- A trace without a `set`, run at an instant at which the entry
under the key is unexpired, leaves that entry in place. -/
theorem runOps_no_set (p u : String) (now : Nat) (ops : List SOp)
    (hns : lastSetVal ops = none) :
    ∀ (d : SessionData) (e : Entry),
      dictGet d (SessionStore.key p u) = some e →
      now - e.updated_at.getD 0 ≤ SESSION_TTL_SECONDS →
      dictGet (SessionStore.runOps p u now d ops) (SessionStore.key p u) = some e := by
  induction ops with
  | nil => intro d e hd _; exact hd
  | cons op rest ih =>
      intro d e hd hfresh
      cases hrest : lastSetVal rest with
      | some v => simp [lastSetVal, hrest] at hns
      | none =>
          cases op with
          | set v => simp [lastSetVal, hrest] at hns
          | get =>
              have hstep : SessionStore.step p u now d SOp.get = d := by
                simp [SessionStore.step, SessionStore.get, hd, Nat.not_lt.mpr hfresh]
              rw [SessionStore.runOps, hstep]
              exact ih hrest d e hd hfresh

/-- C1: for every trace of interleaved set and get calls by concurrent
callers on one session-store key, serialized in lock-acquisition order
and run against any initial table, the final stored entry under that
key is exactly the record written by the last set of the trace: no
update is lost. -/
theorem claim_C1_no_lost_update (p u : String) (now : Nat) (ops : List SOp)
    (v : String) (hlast : lastSetVal ops = some v) :
    ∀ d : SessionData,
      dictGet (SessionStore.runOps p u now d ops) (SessionStore.key p u) =
        some { session_id := some v
               platform := p
               user_id := u
               updated_at := some now } := by
  induction ops with
  | nil => simp [lastSetVal] at hlast
  | cons op rest ih =>
      intro d
      cases hrest : lastSetVal rest with
      | some w =>
          have hw : w = v := by
            simp [lastSetVal, hrest] at hlast
            exact hlast
          subst hw
          rw [SessionStore.runOps]
          exact ih hrest _
      | none =>
          cases op with
          | get => simp [lastSetVal, hrest] at hlast
          | set s =>
              have hs : s = v := by
                simp [lastSetVal, hrest] at hlast
                exact hlast
              subst hs
              rw [SessionStore.runOps]
              have hins :
                  dictGet (SessionStore.step p u now d (SOp.set s))
                    (SessionStore.key p u) =
                    some { session_id := some s
                           platform := p
                           user_id := u
                           updated_at := some now } := by
                simp [SessionStore.step, SessionStore.set, dictGet_insert]
              exact runOps_no_set p u now rest hrest _ _ hins
                (by simp [Nat.sub_self])

/-- C1 witness: a concrete four-call trace from two writers and two
readers ends with the value of the last set. -/
theorem claim_C1_witness :
    lastSetVal [SOp.set (("a")), SOp.get, SOp.set (("b")), SOp.get] = some (("b")) ∧
    dictGet
      (SessionStore.runOps (("telegram")) (("42")) 5
        [] [SOp.set (("a")), SOp.get, SOp.set (("b")), SOp.get])
      (SessionStore.key (("telegram")) (("42"))) =
      some { session_id := some (("b"))
             platform := ("telegram")
             user_id := ("42")
             updated_at := some 5 } :=
  ⟨rfl, claim_C1_no_lost_update (("telegram")) (("42")) 5
    [SOp.set (("a")), SOp.get, SOp.set (("b")), SOp.get] (("b")) rfl []⟩

/-- C2 counterexample: the claim that every state-file access holds
the lock and every write is an atomic replace is false — the last-run
table accesses of `load_state` and `save_state` are bare
`read_text`/`write_text` calls with no lock and no temp-file-plus-
rename. -/
theorem claim_C2_counterexample :
    ¬ (∀ a ∈ programAccesses,
        a.underLock = true ∧ (a.isWrite = true → a.atomicReplace = true)) := by
  decide

/-- C2 amended: every access to the session table and the notification
queue happens inside the file lock and every such write is an atomic
temp-file-plus-rename replace, but the last-run table is read by
`load_state` and written by `save_state` with no lock and with a
plain, non-atomic `write_text`. -/
theorem claim_C2_amended :
    ∀ a ∈ programAccesses,
      ((a.resource = Resource.sessions ∨ a.resource = Resource.notifications) →
        a.underLock = true ∧ (a.isWrite = true → a.atomicReplace = true)) ∧
      (a.resource = Resource.lastRun →
        a.underLock = false ∧ a.atomicReplace = false) := by
  decide

/-- C2 witness: the amended theorem applied to the `save_state` write,
which is in the program trace, unlocked and non-atomic. -/
theorem claim_C2_witness :
    ((⟨Resource.lastRun, true, false, false⟩ : Access) ∈ programAccesses) ∧
    ((Access.mk Resource.lastRun true false false).resource = Resource.lastRun →
      (Access.mk Resource.lastRun true false false).underLock = false ∧
      (Access.mk Resource.lastRun true false false).atomicReplace = false) :=
  ⟨by decide,
   (claim_C2_amended (Access.mk Resource.lastRun true false false) (by decide)).2⟩

/-- C3: the due check of `is_due`, for every cron successor function,
task, last-run table and instant: a disabled task is never due; with
no last-run entry the task is due exactly when the next fire time
computed from one minute before now is at most now; with a recorded
last-run instant it is due exactly when the next fire time computed
from that instant is at most now. -/
theorem claim_C3_due_check (nextFire : String → Int → Int)
    (task : SchedTask) (st : List (String × Int)) (now : Int) :
    (task.enabled = false → is_due nextFire task st now = false) ∧
    (task.enabled = true → dictGet st task.name = none →
      (is_due nextFire task st now = true ↔
        nextFire task.schedule (now - 60) ≤ now)) ∧
    (task.enabled = true → ∀ t0, dictGet st task.name = some t0 →
      (is_due nextFire task st now = true ↔
        nextFire task.schedule t0 ≤ now)) := by
  refine ⟨fun h => ?_, fun h hl => ?_, fun h t0 hl => ?_⟩
  · simp [is_due, h]
  · simp [is_due, h, hl]
  · simp [is_due, h, hl]

/-- C3 witness: a concrete enabled task with a recorded last run at 0
and a successor function firing 300 seconds later is due at 400. -/
theorem claim_C3_witness :
    ({ name := ("t"), schedule := ("*/5 * * * *"), prompt := ("p"),
       project_dir := ("/w"), allowed_tools := none, model := none,
       max_budget_usd := none, timeout_seconds := 300, enabled := true,
       notify := true, notify_platforms := [("telegram")] : SchedTask }).enabled = true ∧
    dictGet [((("t")), (0 : Int))] (("t")) = some 0 ∧
    is_due (fun _ b => b + 300)
      { name := ("t"), schedule := ("*/5 * * * *"), prompt := ("p"),
        project_dir := ("/w"), allowed_tools := none, model := none,
        max_budget_usd := none, timeout_seconds := 300, enabled := true,
        notify := true, notify_platforms := [("telegram")] }
      [((("t")), (0 : Int))] 400 = true :=
  ⟨rfl, by decide,
   ((claim_C3_due_check (fun _ b => b + 300)
      { name := ("t"), schedule := ("*/5 * * * *"), prompt := ("p"),
        project_dir := ("/w"), allowed_tools := none, model := none,
        max_budget_usd := none, timeout_seconds := 300, enabled := true,
        notify := true, notify_platforms := [("telegram")] }
      [((("t")), (0 : Int))] 400).2.2 rfl 0 (by decide)).mpr (by decide)⟩

/-- C4: when `get` finds an entry whose `updated_at` lies more than
the 7 day TTL before the current time it deletes the entry and
returns absent, an immediately subsequent `get` (at any instant)
also returns absent with no separate purge call, and an entry within
the TTL is returned with its stored session id and leaves the table
unchanged. -/
theorem claim_C4_lazy_expiry (d : SessionData) (p u : String)
    (now uat : Nat) (e : Entry)
    (h1 : dictGet d (SessionStore.key p u) = some e)
    (h2 : e.updated_at = some uat) :
    (SESSION_TTL_SECONDS < now - uat →
      (SessionStore.get d p u now).1 = none ∧
      (SessionStore.get d p u now).2 = dictErase d (SessionStore.key p u) ∧
      ∀ now2, (SessionStore.get (SessionStore.get d p u now).2 p u now2).1 = none) ∧
    (now - uat ≤ SESSION_TTL_SECONDS →
      SessionStore.get d p u now = (e.session_id, d)) := by
  constructor
  · intro hexp
    have hget : SessionStore.get d p u now =
        (none, dictErase d (SessionStore.key p u)) := by
      simp [SessionStore.get, h1, h2, hexp]
    refine ⟨by rw [hget], by rw [hget], fun now2 => ?_⟩
    rw [hget]
    simp [SessionStore.get, dictGet_erase]
  · intro hfresh
    simp [SessionStore.get, h1, h2, Nat.not_lt.mpr hfresh]

/-- C4 witness: a table with one entry stamped at 0; at instant
TTL + 1 the entry is expired, deleted, and a second get still answers
absent; at instant TTL it is returned. -/
theorem claim_C4_witness :
    (SessionStore.get
      [((("telegram:7")),
        { session_id := some (("sid")), platform := ("telegram"),
          user_id := ("7"), updated_at := some 0 })]
      (("telegram")) (("7")) 604801).1 = none ∧
    (SessionStore.get
      (SessionStore.get
        [((("telegram:7")),
          { session_id := some (("sid")), platform := ("telegram"),
            user_id := ("7"), updated_at := some 0 })]
        (("telegram")) (("7")) 604801).2
      (("telegram")) (("7")) 604801).1 = none ∧
    SessionStore.get
      [((("telegram:7")),
        { session_id := some (("sid")), platform := ("telegram"),
          user_id := ("7"), updated_at := some 0 })]
      (("telegram")) (("7")) 604800 =
      (some (("sid")),
       [((("telegram:7")),
         { session_id := some (("sid")), platform := ("telegram"),
           user_id := ("7"), updated_at := some 0 })]) := by
  have h1 := claim_C4_lazy_expiry
    [((("telegram:7")),
      { session_id := some (("sid")), platform := ("telegram"),
        user_id := ("7"), updated_at := some 0 })]
    (("telegram")) (("7")) 604801 0
    { session_id := some (("sid")), platform := ("telegram"),
      user_id := ("7"), updated_at := some 0 }
    (by decide) rfl
  have h2 := claim_C4_lazy_expiry
    [((("telegram:7")),
      { session_id := some (("sid")), platform := ("telegram"),
        user_id := ("7"), updated_at := some 0 })]
    (("telegram")) (("7")) 604800 0
    { session_id := some (("sid")), platform := ("telegram"),
      user_id := ("7"), updated_at := some 0 }
    (by decide) rfl
  exact ⟨(h1.1 (by decide)).1, (h1.1 (by decide)).2.2 604801,
    h2.2 (by decide)⟩

/-- C10 counterexample: at current time 0 an entry lacking
`updated_at` is not treated as infinitely old — `get` returns its
stored session id and leaves the table unchanged, contradicting the
claim that such an entry is always expired, deleted and absent. -/
theorem claim_C10_counterexample :
    dictGet
      [((("telegram:7")), Entry.mk (some (("s"))) (("telegram")) (("7")) none)]
      (("telegram:7")) =
      some (Entry.mk (some (("s"))) (("telegram")) (("7")) none) ∧
    (SessionStore.get
      [((("telegram:7")), Entry.mk (some (("s"))) (("telegram")) (("7")) none)]
      (("telegram")) (("7")) 0).1 = some (("s")) ∧
    (SessionStore.get
      [((("telegram:7")), Entry.mk (some (("s"))) (("telegram")) (("7")) none)]
      (("telegram")) (("7")) 0).2 =
      [((("telegram:7")), Entry.mk (some (("s"))) (("telegram")) (("7")) none)] := by
  refine ⟨by decide, by decide, by decide⟩

/-- C10 amended: an entry lacking `updated_at` is treated as updated
at time 0 (the epoch), so whenever the current time exceeds the TTL —
true for any realistic clock — `get` deletes it and returns absent,
an immediately subsequent `get` also returns absent, and
`cleanup_expired` removes it and counts it among the removed. -/
theorem claim_C10_amended (d : SessionData) (p u : String) (now : Nat)
    (e : Entry)
    (h1 : dictGet d (SessionStore.key p u) = some e)
    (h2 : e.updated_at = none)
    (h3 : SESSION_TTL_SECONDS < now) :
    (SessionStore.get d p u now).1 = none ∧
    (SessionStore.get d p u now).2 = dictErase d (SessionStore.key p u) ∧
    (∀ now2, (SessionStore.get (SessionStore.get d p u now).2 p u now2).1 = none) ∧
    (SessionStore.key p u, e) ∉ (SessionStore.cleanup_expired d now).1 ∧
    1 ≤ (SessionStore.cleanup_expired d now).2 := by
  have hexp : SESSION_TTL_SECONDS < now - e.updated_at.getD 0 := by
    rw [h2]
    simpa using h3
  have hget : SessionStore.get d p u now =
      (none, dictErase d (SessionStore.key p u)) := by
    simp [SessionStore.get, h1, hexp]
  refine ⟨by rw [hget], by rw [hget], fun now2 => ?_, ?_, ?_⟩
  · rw [hget]
    simp [SessionStore.get, dictGet_erase]
  · intro hmem
    have hp := (List.mem_filter.mp hmem).2
    rw [h2] at hp
    simp at hp
    exact absurd hp (Nat.not_le.mpr h3)
  · have hmem : (SessionStore.key p u, e) ∈
        List.filter
          (fun q =>
            decide (SESSION_TTL_SECONDS < now - (Prod.snd q).updated_at.getD 0)) d := by
      refine List.mem_filter.mpr ⟨dictGet_mem h1, ?_⟩
      simpa using hexp
    exact List.length_pos_of_mem hmem

/-- C10 witness: a table with one entry lacking `updated_at`, read at
an instant past the TTL: get answers absent and self-heals, and
cleanup removes at least one entry. -/
theorem claim_C10_witness :
    (SessionStore.get
      [((("telegram:7")), Entry.mk (some (("s"))) (("telegram")) (("7")) none)]
      (("telegram")) (("7")) 604801).1 = none ∧
    (SessionStore.get
      (SessionStore.get
        [((("telegram:7")), Entry.mk (some (("s"))) (("telegram")) (("7")) none)]
        (("telegram")) (("7")) 604801).2
      (("telegram")) (("7")) 604801).1 = none ∧
    1 ≤ (SessionStore.cleanup_expired
      [((("telegram:7")), Entry.mk (some (("s"))) (("telegram")) (("7")) none)]
      604801).2 := by
  have h := claim_C10_amended
    [((("telegram:7")), Entry.mk (some (("s"))) (("telegram")) (("7")) none)]
    (("telegram")) (("7")) 604801
    (Entry.mk (some (("s"))) (("telegram")) (("7")) none)
    (by decide) rfl (by decide)
  exact ⟨h.1, h.2.2.1 604801, h.2.2.2.2⟩

/-- Every entry of the popped partition is gone: filtering the
remainder for the popped platform yields nothing. -/
theorem filter_ne_filter_eq_nil (entries : List Notification) (p : String) :
    (entries.filter (fun e => decide (¬ e.platform = p))).filter
      (fun e => decide (e.platform = p)) = [] := by
  induction entries with
  | nil => rfl
  | cons e rest ih =>
      simp only [List.filter_cons]
      by_cases h : e.platform = p
      · simp [h, ih]
      · simp [h, ih]

/-- Entries of any other platform survive a pop untouched. -/
theorem filter_ne_preserves (entries : List Notification) (p q : String)
    (hqp : q ≠ p) :
    (entries.filter (fun e => decide (¬ e.platform = p))).filter
      (fun e => decide (e.platform = q)) =
      entries.filter (fun e => decide (e.platform = q)) := by
  rw [List.filter_filter]
  apply List.filter_congr
  intro a _
  by_cases hq : a.platform = q
  · have hp : ¬ a.platform = p := by
      rw [hq]
      exact hqp
    simp [hq, hp]
    exact hqp
  · simp [hq]

/-- C5: `pop_all` returns exactly the queued entries of the requested
platform and persists exactly the entries of every other platform; an
immediately repeated `pop_all` for the same platform returns the empty
list, and the entries of any other platform are untouched. -/
theorem claim_C5_pop_all (entries : List Notification) (p : String) :
    (NotificationQueue.pop_all entries p).1 =
      entries.filter (fun e => decide (e.platform = p)) ∧
    (NotificationQueue.pop_all entries p).2 =
      entries.filter (fun e => decide (¬ e.platform = p)) ∧
    (NotificationQueue.pop_all (NotificationQueue.pop_all entries p).2 p).1 = [] ∧
    ∀ q, q ≠ p →
      (NotificationQueue.pop_all entries p).2.filter
        (fun e => decide (e.platform = q)) =
        entries.filter (fun e => decide (e.platform = q)) := by
  refine ⟨rfl, rfl, ?_, fun q hq => ?_⟩
  · exact filter_ne_filter_eq_nil entries p
  · exact filter_ne_preserves entries p q hq

/-- C5 witness: a queue with one telegram and one discord entry;
popping telegram leaves the discord entry untouched and a second
telegram pop is empty. -/
theorem claim_C5_witness :
    (NotificationQueue.pop_all
      (NotificationQueue.pop_all
        [Notification.mk (("telegram")) none (("m1")) (("t1")) (("src")),
         Notification.mk (("discord")) none (("m2")) (("t2")) (("src"))]
        (("telegram"))).2
      (("telegram"))).1 = [] ∧
    (NotificationQueue.pop_all
      [Notification.mk (("telegram")) none (("m1")) (("t1")) (("src")),
       Notification.mk (("discord")) none (("m2")) (("t2")) (("src"))]
      (("telegram"))).2.filter
        (fun e => decide (e.platform = (("discord")))) =
      [Notification.mk (("discord")) none (("m2")) (("t2")) (("src"))] := by
  have h := claim_C5_pop_all
    [Notification.mk (("telegram")) none (("m1")) (("t1")) (("src")),
     Notification.mk (("discord")) none (("m2")) (("t2")) (("src"))]
    (("telegram"))
  refine ⟨h.2.2.1, ?_⟩
  rw [h.2.2.2 (("discord")) (by decide)]
  decide

/-- The validation loop computes the filtered, materialized list and
one warning per rejected entry, at every start index. -/
theorem load_tasks_go_spec (validCron : String → Bool) (dpd : String) :
    ∀ (raw : List RawTask) (i : Nat),
      (load_tasks_go validCron dpd i raw).1 =
        ((withIdx i raw).filter (fun q => isValidRaw validCron q.2)).map
          (fun q => materializeTask dpd q.1 q.2) ∧
      (load_tasks_go validCron dpd i raw).2.length =
        (raw.filter (fun t => !(isValidRaw validCron t))).length := by
  intro raw
  induction raw with
  | nil => intro i; exact ⟨rfl, rfl⟩
  | cons t rest ih =>
      intro i
      rcases hp : t.prompt with _ | p
      · have hv : isValidRaw validCron t = false := by
          simp [isValidRaw, hp]
        constructor
        · simp [load_tasks_go, hp, withIdx, List.filter_cons, hv, (ih (i + 1)).1]
        · simp [load_tasks_go, hp, List.filter_cons, hv, (ih (i + 1)).2]
      · rcases hs : t.schedule with _ | sched
        · have hv : isValidRaw validCron t = false := by
            simp [isValidRaw, hp, hs]
          constructor
          · simp [load_tasks_go, hp, hs, withIdx, List.filter_cons, hv,
              (ih (i + 1)).1]
          · simp [load_tasks_go, hp, hs, List.filter_cons, hv, (ih (i + 1)).2]
        · by_cases hc : validCron sched = true
          · have hv : isValidRaw validCron t = true := by
              simp [isValidRaw, hp, hs, hc]
            constructor
            · simp [load_tasks_go, hp, hs, hc, withIdx, List.filter_cons, hv,
                (ih (i + 1)).1]
            · simp [load_tasks_go, hp, hs, hc, List.filter_cons, hv,
                (ih (i + 1)).2]
          · have hv : isValidRaw validCron t = false := by
              simp [isValidRaw, hp, hs]
              simpa using hc
            constructor
            · simp [load_tasks_go, hp, hs, hc, withIdx, List.filter_cons, hv,
                (ih (i + 1)).1]
            · simp [load_tasks_go, hp, hs, hc, List.filter_cons, hv,
                (ih (i + 1)).2]

/-- C9: for every cron validity oracle and task source, the registry
returns, in order, exactly the entries that have a prompt and a
syntactically valid schedule, each materialized with the defaults
(enabled true, timeout 300, notify true, all known platforms, and a
positional placeholder name when the name is missing, inside
`materializeTask`), and each rejected entry produces exactly one
warning instead of failing the load (the function is total). -/
theorem claim_C9_registry (validCron : String → Bool)
    (defaultProjectDir : String) (raw : List RawTask) :
    (load_tasks validCron defaultProjectDir raw).1 =
      load_tasks_spec validCron defaultProjectDir raw ∧
    (load_tasks validCron defaultProjectDir raw).2.length =
      (raw.filter (fun t => !(isValidRaw validCron t))).length :=
  ⟨(load_tasks_go_spec validCron defaultProjectDir raw 0).1,
   (load_tasks_go_spec validCron defaultProjectDir raw 0).2⟩

/-- C6 counterexample: not every exception raised while invoking the
agent is converted into a failure-shaped result — an exception other
than the two anticipated types (here a permission error from
`subprocess.run`) propagates out of the dispatch. -/
theorem claim_C6_counterexample :
    ¬ (∀ o : AgentOutcome, ∃ r,
        run_task (fun _ => none)
          { name := ("t"), schedule := ("* * * * *"), prompt := ("p"),
            project_dir := ("/w"), allowed_tools := none, model := none,
            max_budget_usd := none, timeout_seconds := 300, enabled := true,
            notify := true, notify_platforms := [("telegram")] }
          (("ts")) o = Except.ok r) := by
  intro h
  obtain ⟨r, hr⟩ := h (AgentOutcome.raised (("PermissionError")))
  simp [run_task, ClaudeBridge.ask] at hr

/-- C6 amended: the two anticipated exception types — agent timeout
and missing CLI binary — are caught inside the dispatch and converted
into failure-shaped results; any other exception raised while invoking
the agent propagates out of the dispatch to the caller; the daemon
loop wraps each check cycle in a catch-all, so such an exception never
terminates the daemon (one-shot mode has no such guard). -/
theorem claim_C6_amended (pj : String → Option JsonData) (task : SchedTask)
    (ts : String) :
    (∃ r, run_task pj task ts AgentOutcome.timedOut = Except.ok r ∧
      r.response.is_error = true) ∧
    (∃ r, run_task pj task ts AgentOutcome.cliNotFound = Except.ok r ∧
      r.response.is_error = true) ∧
    (∀ exn, run_task pj task ts (AgentOutcome.raised exn) = Except.error exn) ∧
    (∀ (nextFire : String → Int → Int) (outcomes : String → AgentOutcome)
      (now : Int) (tasks : List SchedTask) (st : List (String × Int)),
      daemon_cycle pj nextFire outcomes ts now tasks st =
        (check_and_run_aux pj nextFire outcomes ts now tasks st).1) := by
  refine ⟨⟨_, rfl, rfl⟩, ⟨_, rfl, rfl⟩, fun exn => rfl,
    fun nextFire outcomes now tasks st => rfl⟩

/-- C7: a timed-out agent invocation yields a dispatch result with
`is_error = true` whose text contains the configured timeout value,
and the task still produces exactly one run-log entry and one
notification enqueue per configured platform (so at least one when
the platform list is non-empty). -/
theorem claim_C7_timeout (pj : String → Option JsonData) (task : SchedTask)
    (ts : String) (hn : task.notify = true) :
    ∃ r, run_task pj task ts AgentOutcome.timedOut = Except.ok r ∧
      r.response.is_error = true ∧
      r.response.text =
        (("Timeout after ")) ++ toString task.timeout_seconds ++ (("s")) ∧
      strContains r.response.text (toString task.timeout_seconds) ∧
      r.logs.length = 1 ∧
      r.notifications.length = task.notify_platforms.length ∧
      (task.notify_platforms ≠ [] → r.notifications ≠ []) := by
  refine ⟨_, rfl, rfl, rfl, ⟨("Timeout after "), ("s"), rfl⟩, rfl, ?_, ?_⟩
  · simp [run_task, ClaudeBridge.ask, notificationsFor, hn]
  · intro hne
    simp [run_task, ClaudeBridge.ask, notificationsFor, hn, hne]

/-- C7 witness: a concrete task with a 300 second timeout and one
notification platform. -/
theorem claim_C7_witness :
    ({ name := ("t"), schedule := ("* * * * *"), prompt := ("p"),
       project_dir := ("/w"), allowed_tools := none, model := none,
       max_budget_usd := none, timeout_seconds := 300, enabled := true,
       notify := true, notify_platforms := [("telegram")] : SchedTask }).notify
      = true ∧
    ∃ r, run_task (fun _ => none)
        { name := ("t"), schedule := ("* * * * *"), prompt := ("p"),
          project_dir := ("/w"), allowed_tools := none, model := none,
          max_budget_usd := none, timeout_seconds := 300, enabled := true,
          notify := true, notify_platforms := [("telegram")] }
        (("x")) AgentOutcome.timedOut = Except.ok r ∧
      r.response.is_error = true ∧
      r.response.text = (("Timeout after 300s")) ∧
      r.logs.length = 1 ∧
      r.notifications.length = 1 := by
  refine ⟨rfl, ?_⟩
  obtain ⟨r, h1, h2, h3, _, h5, h6, _⟩ := claim_C7_timeout (fun _ => none)
    { name := ("t"), schedule := ("* * * * *"), prompt := ("p"),
      project_dir := ("/w"), allowed_tools := none, model := none,
      max_budget_usd := none, timeout_seconds := 300, enabled := true,
      notify := true, notify_platforms := [("telegram")] }
    (("x")) rfl
  exact ⟨r, h1, h2, by rw [h3]; decide, h5, h6⟩

set_option maxRecDepth 8000 in
/-- C8 counterexample: the enqueued message of a failed dispatch whose
result text has 301 characters (300 times the letter a, then Z)
contains neither the full result text nor any truncation marker — the
failure branch slices to 300 characters with no marker. -/
theorem claim_C8_counterexample :
    (Notification.mk (("telegram")) none
      (notifMsg
        { name := ("t"), schedule := ("* * * * *"), prompt := ("p"),
          project_dir := ("/w"), allowed_tools := none, model := none,
          max_budget_usd := none, timeout_seconds := 300, enabled := true,
          notify := true, notify_platforms := [("telegram")] }
        { text := String.mk (List.replicate 300 ('a') ++ [('Z')]),
          exit_code := 1, cost_usd := 0, duration_ms := 0,
          duration_api_ms := 0, num_turns := 0, session_id := "",
          is_error := true })
      (("x")) (("scheduler:t"))) ∈
      notificationsFor
        { name := ("t"), schedule := ("* * * * *"), prompt := ("p"),
          project_dir := ("/w"), allowed_tools := none, model := none,
          max_budget_usd := none, timeout_seconds := 300, enabled := true,
          notify := true, notify_platforms := [("telegram")] }
        (("x"))
        { text := String.mk (List.replicate 300 ('a') ++ [('Z')]),
          exit_code := 1, cost_usd := 0, duration_ms := 0,
          duration_api_ms := 0, num_turns := 0, session_id := "",
          is_error := true } ∧
    ¬ strContains
        (notifMsg
          { name := ("t"), schedule := ("* * * * *"), prompt := ("p"),
            project_dir := ("/w"), allowed_tools := none, model := none,
            max_budget_usd := none, timeout_seconds := 300, enabled := true,
            notify := true, notify_platforms := [("telegram")] }
          { text := String.mk (List.replicate 300 ('a') ++ [('Z')]),
            exit_code := 1, cost_usd := 0, duration_ms := 0,
            duration_api_ms := 0, num_turns := 0, session_id := "",
            is_error := true })
        (String.mk (List.replicate 300 ('a') ++ [('Z')])) ∧
    ¬ strContains
        (notifMsg
          { name := ("t"), schedule := ("* * * * *"), prompt := ("p"),
            project_dir := ("/w"), allowed_tools := none, model := none,
            max_budget_usd := none, timeout_seconds := 300, enabled := true,
            notify := true, notify_platforms := [("telegram")] }
          { text := String.mk (List.replicate 300 ('a') ++ [('Z')]),
            exit_code := 1, cost_usd := 0, duration_ms := 0,
            duration_api_ms := 0, num_turns := 0, session_id := "",
            is_error := true })
        (("(truncated")) := by
  refine ⟨by decide, fun hc => ?_, fun hc => ?_⟩
  · have hz := strContains_char_mem hc
      (show ('Z') ∈ (String.mk (List.replicate 300 ('a') ++ [('Z')])).data by decide)
    exact absurd hz (by decide)
  · have hp := strContains_char_mem hc
      (show ('(') ∈ (("(truncated")).data by decide)
    exact absurd hp (by decide)

/-- C8 amended: with the notify flag set, exactly one broadcast entry
is enqueued per configured delivery platform; for a successful result
the message contains the full text when it has at most 500 characters
and otherwise a 500-character prefix followed by the explicit
truncation marker; for a failed result the message carries a
300-character prefix with no marker. -/
theorem claim_C8_amended (task : SchedTask) (ts : String)
    (r : ClaudeResponse) (hn : task.notify = true) :
    (notificationsFor task ts r).length = task.notify_platforms.length ∧
    ∀ n ∈ notificationsFor task ts r,
      (r.is_error = false → pyLen r.text ≤ 500 →
        n.message = (("[Scheduled Task] ")) ++ task.name ++ (("\n\n")) ++ r.text ∧
        strContains n.message r.text) ∧
      (r.is_error = false → 500 < pyLen r.text →
        n.message = (("[Scheduled Task] ")) ++ task.name ++ (("\n\n")) ++
          (pyTake r.text 500 ++
            (("\n\n(truncated — full output in scheduler logs)"))) ∧
        strContains n.message (("(truncated"))) ∧
      (r.is_error = true →
        n.message = (("[Scheduled Task Failed] ")) ++ task.name ++
          (("\n\n")) ++ pyTake r.text 300) := by
  refine ⟨by simp [notificationsFor, hn], fun n hm => ?_⟩
  simp only [notificationsFor, hn, if_true, List.mem_map] at hm
  obtain ⟨p, hp, he⟩ := hm
  subst he
  refine ⟨fun herr hlen => ?_, fun herr hlen => ?_, fun herr => ?_⟩
  · have hmeq : notifMsg task r =
        (("[Scheduled Task] ")) ++ task.name ++ (("\n\n")) ++ r.text := by
      simp [notifMsg, herr, Nat.not_lt.mpr hlen, pyTake_all hlen]
    refine ⟨hmeq, (("[Scheduled Task] ")) ++ task.name ++ (("\n\n")), (""), ?_⟩
    rw [string_append_empty]
    exact hmeq
  · have hmeq : notifMsg task r =
        (("[Scheduled Task] ")) ++ task.name ++ (("\n\n")) ++
          (pyTake r.text 500 ++
            (("\n\n(truncated — full output in scheduler logs)"))) := by
      simp [notifMsg, herr, hlen]
    have mc : strContains
        (("\n\n(truncated — full output in scheduler logs)"))
        (("(truncated")) :=
      ⟨("\n\n"), (" — full output in scheduler logs)"), by decide⟩
    refine ⟨hmeq, ?_⟩
    have hc : strContains (notifMsg task r) (("(truncated")) := by
      rw [hmeq]
      exact strContains_appL _ (strContains_appL _ mc)
    exact hc
  · simp [notifMsg, herr]

/-- C8 witness: a short successful result on a single-platform task
yields one broadcast entry whose message contains the full text. -/
theorem claim_C8_witness :
    (notificationsFor
      { name := ("t"), schedule := ("* * * * *"), prompt := ("p"),
        project_dir := ("/w"), allowed_tools := none, model := none,
        max_budget_usd := none, timeout_seconds := 300, enabled := true,
        notify := true, notify_platforms := [("telegram")] }
      (("x"))
      { text := ("hi"), exit_code := 0, cost_usd := 0, duration_ms := 0,
        duration_api_ms := 0, num_turns := 0, session_id := "",
        is_error := false }).length = 1 ∧
    ∀ n ∈ notificationsFor
      { name := ("t"), schedule := ("* * * * *"), prompt := ("p"),
        project_dir := ("/w"), allowed_tools := none, model := none,
        max_budget_usd := none, timeout_seconds := 300, enabled := true,
        notify := true, notify_platforms := [("telegram")] }
      (("x"))
      { text := ("hi"), exit_code := 0, cost_usd := 0, duration_ms := 0,
        duration_api_ms := 0, num_turns := 0, session_id := "",
        is_error := false },
      strContains n.message (("hi")) := by
  have h := claim_C8_amended
    { name := ("t"), schedule := ("* * * * *"), prompt := ("p"),
      project_dir := ("/w"), allowed_tools := none, model := none,
      max_budget_usd := none, timeout_seconds := 300, enabled := true,
      notify := true, notify_platforms := [("telegram")] }
    (("x"))
    { text := ("hi"), exit_code := 0, cost_usd := 0, duration_ms := 0,
      duration_api_ms := 0, num_turns := 0, session_id := "",
      is_error := false }
    rfl
  exact ⟨h.1.trans rfl, fun n hm => ((h.2 n hm).1 rfl (by decide)).2⟩
